import Mathlib

/-!
Verification development for the answer_factory backend.

The definitions below are shallow embeddings of the Python source files:
  backend/utils/processing.py   (chunk_text)
  backend/app.py                (generate / upload-text / upload-url / upload-pdf / clear endpoints)
  backend/utils/model.py        (generate_response_from_model)
  backend/utils/chroma.py       (get_chunks_from_chroma)
  backend/routes/generate.py    (route-level generate_response, apply_style_to_prompt)

Python strings are modelled as List Char (slicing text[a:b] becomes
(t.drop a).take (b - a)); the external OpenAI call and the Chroma
collection query are modelled as oracle function parameters returning
Except, so that both the success and the failure path of the source are
represented.  Floats that the source merely passes through (temperature,
top_p, penalties) are modelled as Rat; no arithmetic is done on them.
-/

/-- One execution of the while-loop of chunk_text in
backend/utils/processing.py, indexed by fuel.  The loop body is:
  while start < text_length: chunk = text[start:start+chunk_size];
  chunks.append(chunk); start += chunk_size - overlap.
A result of none means the loop was still running when the fuel ran out;
since start is a Nat, start + (S - O) with O >= S leaves start unchanged,
exactly as the Python loop fails to advance when chunk_size - overlap <= 0. -/
def chunkLoop (t : List Char) (S O : Nat) : (fuel : Nat) → (start : Nat) → Option (List (List Char))
  | 0, start => if start < t.length then none else some []
  | fuel + 1, start =>
    if start < t.length then
      (chunkLoop t S O fuel (start + (S - O))).map (fun rest => (t.drop start).take S :: rest)
    else some []

/-- chunk_text from backend/utils/processing.py.  When overlap < chunk_size
the loop performs at most t.length iterations, so fuel t.length is enough
(proved below); the getD only discharges the Option wrapper. -/
def chunk_text (t : List Char) (S O : Nat) : List (List Char) :=
  (chunkLoop t S O t.length 0).getD []

/-- The 43-character scenario text from the specification (the spec counts
it as 44 characters; its actual length is 43). -/
def foxData : List Char := "The quick brown fox jumps over the lazy dog".data

/-- Formalization of the reconstruction phrase of the spec: the
concatenation of every chunk's first (chunk_size - overlap) characters,
followed by the remainder of the final chunk. -/
def reconstruct (cs : List (List Char)) (d : Nat) : List Char :=
  (cs.map (fun c => c.take d)).flatten ++ (cs.getD (cs.length - 1) []).drop d

/- ----------------------------------------------------------------- -/
/- Arithmetic helpers for the ceiling division (L + d - 1) / d.       -/
/- ----------------------------------------------------------------- -/

theorem ceil_div_succ (d m : Nat) (hd : 0 < d) (hm : 0 < m) :
    (m + d - 1) / d = (m - d + d - 1) / d + 1 := by
  have h1 : m + d - 1 = (m - 1) + d := by omega
  rw [h1, Nat.add_div_right _ hd]
  rcases le_or_lt m d with hle | hlt
  · have h2 : m - d = 0 := by omega
    rw [h2]
    have h3 : (m - 1) / d = 0 := Nat.div_eq_of_lt (by omega)
    have h4 : (0 + d - 1) / d = 0 := Nat.div_eq_of_lt (by omega)
    rw [h3, h4]
  · have h2 : m - d + d - 1 = m - 1 := by omega
    rw [h2]

theorem ceil_mul_ge (L d : Nat) (hd : 0 < d) : L ≤ (L + d - 1) / d * d := by
  obtain ⟨r, hr, h1⟩ : ∃ r, r < d ∧ d * ((L + d - 1) / d) + r = L + d - 1 :=
    ⟨(L + d - 1) % d, Nat.mod_lt _ hd, Nat.div_add_mod _ _⟩
  have h3 : d * ((L + d - 1) / d) = L + d - 1 - r := Nat.eq_sub_of_add_eq h1
  rw [Nat.mul_comm, h3]
  omega

/- ----------------------------------------------------------------- -/
/- Characterization of the loop when overlap < chunk_size.            -/
/- ----------------------------------------------------------------- -/

theorem chunkLoop_eq (t : List Char) (S O : Nat) (h : O < S) :
    ∀ (fuel start : Nat), t.length - start ≤ fuel →
      chunkLoop t S O fuel start =
        some ((List.range ((t.length - start + (S - O) - 1) / (S - O))).map
          (fun i => (t.drop (start + i * (S - O))).take S)) := by
  intro fuel
  induction fuel with
  | zero =>
    intro start hfuel
    have hs : ¬ start < t.length := by omega
    have h0 : t.length - start = 0 := by omega
    have hz : (S - O - 1) / (S - O) = 0 := Nat.div_eq_of_lt (by omega)
    simp [chunkLoop, hs, h0, hz]
  | succ fuel ih =>
    intro start hfuel
    by_cases hs : start < t.length
    · have hrec := ih (start + (S - O)) (by omega)
      rw [chunkLoop, if_pos hs, hrec, Option.map_some']
      congr 1
      have hm : 0 < t.length - start := by omega
      have hsub : t.length - (start + (S - O)) = t.length - start - (S - O) := by omega
      rw [hsub, ceil_div_succ (S - O) (t.length - start) (by omega) hm,
        List.range_succ_eq_map, List.map_cons, List.map_map]
      congr 1
      · congr 1
        congr 1
        omega
      · apply List.map_congr_left
        intro i _
        have harg : start + (S - O) + i * (S - O) = start + Nat.succ i * (S - O) := by
          rw [Nat.succ_mul]; omega
        simp only [Function.comp]
        rw [harg]
    · have h0 : t.length - start = 0 := by omega
      have hz : (S - O - 1) / (S - O) = 0 := Nat.div_eq_of_lt (by omega)
      simp [chunkLoop, hs, h0, hz]

theorem chunk_text_eq (t : List Char) (S O : Nat) (h : O < S) :
    chunk_text t S O =
      (List.range ((t.length + (S - O) - 1) / (S - O))).map
        (fun i => (t.drop (i * (S - O))).take S) := by
  unfold chunk_text
  rw [chunkLoop_eq t S O h t.length 0 (by omega)]
  simp

theorem chunk_text_length (t : List Char) (S O : Nat) (h : O < S) :
    (chunk_text t S O).length = (t.length + (S - O) - 1) / (S - O) := by
  rw [chunk_text_eq t S O h]; simp

theorem chunk_text_getD (t : List Char) (S O : Nat) (h : O < S) (i : Nat)
    (hi : i < (chunk_text t S O).length) :
    (chunk_text t S O).getD i [] = (t.drop (i * (S - O))).take S := by
  rw [chunk_text_eq t S O h] at hi ⊢
  simp only [List.length_map, List.length_range] at hi
  rw [List.getD_eq_getElem _ _ (by simpa using hi)]
  simp

theorem flatten_take_segs (t : List Char) (d : Nat) :
    ∀ n : Nat, ((List.range n).map (fun i => (t.drop (i * d)).take d)).flatten = t.take (n * d) := by
  intro n
  induction n with
  | zero => simp
  | succ n ih =>
    rw [List.range_succ, List.map_append, List.flatten_append, ih]
    simp only [List.map_cons, List.map_nil, List.flatten_cons, List.flatten_nil, List.append_nil]
    rw [Nat.succ_mul, List.take_add]

theorem chunk_text_reconstruct (t : List Char) (S O : Nat) (h : O < S) :
    reconstruct (chunk_text t S O) (S - O) = t := by
  have hd : 0 < S - O := by omega
  have hge := ceil_mul_ge t.length (S - O) hd
  rw [chunk_text_eq t S O h]
  generalize hn : (t.length + (S - O) - 1) / (S - O) = n at hge
  cases n with
  | zero =>
    have hL : t.length = 0 := by
      have h2 : t.length + (S - O) - 1 < S - O := (Nat.div_eq_zero_iff hd).mp hn
      omega
    have ht : t = [] := List.length_eq_zero.mp hL
    subst ht
    simp [reconstruct]
  | succ m =>
    unfold reconstruct
    rw [List.map_map]
    have hmapeq :
        (List.range (m + 1)).map ((fun c => c.take (S - O)) ∘ (fun i => (t.drop (i * (S - O))).take S)) =
          (List.range (m + 1)).map (fun i => (t.drop (i * (S - O))).take (S - O)) := by
      apply List.map_congr_left
      intro i _
      simp only [Function.comp]
      rw [List.take_take, Nat.min_eq_left (by omega)]
    rw [hmapeq, flatten_take_segs t (S - O) (m + 1)]
    have hlen : ((List.range (m + 1)).map (fun i => (t.drop (i * (S - O))).take S)).length = m + 1 := by
      simp
    have hidx : m + 1 - 1 < ((List.range (m + 1)).map (fun i => (t.drop (i * (S - O))).take S)).length := by
      rw [hlen]; omega
    rw [hlen, List.getD_eq_getElem _ _ hidx]
    simp only [Nat.add_sub_cancel, List.getElem_map, List.getElem_range]
    rw [List.take_of_length_le hge]
    have hstep : ((t.drop (m * (S - O))).take S).drop (S - O) = [] := by
      rw [List.drop_take, List.drop_drop]
      have harg : m * (S - O) + (S - O) = (m + 1) * (S - O) := by
        rw [Nat.succ_mul]
      rw [harg, List.drop_eq_nil_of_le hge]
      simp
    rw [hstep, List.append_nil]

/- ----------------------------------------------------------------- -/
/- The loop does not terminate when overlap >= chunk_size.            -/
/- ----------------------------------------------------------------- -/

/-- With chunk_size <= overlap the loop increment chunk_size - overlap is
0 in the Nat model (in Python it is <= 0), so start never reaches
text_length and the while loop runs forever: no amount of fuel makes it
return. -/
theorem chunkLoop_stuck (t : List Char) (S O : Nat) (h : S ≤ O) :
    ∀ (fuel start : Nat), start < t.length → chunkLoop t S O fuel start = none := by
  intro fuel
  induction fuel with
  | zero =>
    intro start hs
    simp [chunkLoop, hs]
  | succ fuel ih =>
    intro start hs
    have hd : S - O = 0 := by omega
    have hstep : start + (S - O) = start := by omega
    rw [chunkLoop, if_pos hs, hstep, ih start hs]
    rfl

/- ----------------------------------------------------------------- -/
/- Store model: the in-memory rag_storage of backend/app.py and the   -/
/- four endpoints that mutate it.                                     -/
/- ----------------------------------------------------------------- -/

/-- The metadata dict appended per chunk by the upload endpoints of
backend/app.py (keys: type, title, author, source, page, upload_time). -/
structure ChunkMeta where
  type : String
  title : String
  author : String
  source : String
  page : String
  upload_time : String
deriving DecidableEq

/-- The module-level rag_storage dict of backend/app.py:
chunks and metadata lists. -/
structure RagStorage where
  chunks : List String
  metadata : List ChunkMeta
deriving DecidableEq

/-- Python range(0, L, step) as the list of loop indices.  In the source,
upload_text iterates range(0, text_length, chunk_size - chunk_overlap);
when the step is <= 0 Python either raises ValueError (step 0, caught by
the handler before any append happens) or yields no iteration (negative
step), so in both cases no element is appended: modelled as []. -/
def pyRange (L step : Nat) : List Nat :=
  if step = 0 then [] else (List.range ((L + step - 1) / step)).map (fun i => i * step)

/-- Python truthiness of an optional string under the `or` operator:
None and the empty string both fall through to the default. -/
def pyOr (o : Option String) (d : String) : String :=
  match o with
  | some t => if t = "" then d else t
  | none => d

/-- The upload-text endpoint of backend/app.py: chunks the request text
with the inline sliding window and appends one chunk and one metadata
record per loop iteration. -/
def upload_text (st : RagStorage) (text : List Char) (chunk_size chunk_overlap : Nat)
    (title author source upload_time : String) : RagStorage :=
  let starts := pyRange text.length (chunk_size - chunk_overlap)
  { chunks := st.chunks ++ starts.map (fun i => String.mk ((text.drop i).take chunk_size)),
    metadata := st.metadata ++ starts.map (fun i =>
      { type := "text", title := title, author := author, source := source,
        page := toString (i / chunk_size + 1), upload_time := upload_time }) }

/-- The upload-url endpoint of backend/app.py: appends one simulated
chunk and one metadata record for the URL. -/
def upload_url (st : RagStorage) (url : String) (title author : Option String)
    (upload_time : String) : RagStorage :=
  let simulated_title := pyOr title ("Contenido de " ++ url)
  let simulated_author := pyOr author "Extraído de web"
  let simulated_content := "[Contenido simulado de " ++ url ++ "]"
  let meta : ChunkMeta :=
    { type := "url", title := simulated_title, author := simulated_author,
      source := url, page := "Web", upload_time := upload_time }
  { chunks := st.chunks ++ [simulated_content],
    metadata := st.metadata ++ [meta] }

/-- The upload-pdf endpoint of backend/app.py: appends
max 1 (file_size / 5000) simulated chunks, each with its metadata record. -/
def upload_pdf (st : RagStorage) (filename : String) (file_size : Nat)
    (upload_time : String) : RagStorage :=
  let pdf_title := filename.replace ".pdf" ""
  let estimated_chunks := max 1 (file_size / 5000)
  { chunks := st.chunks ++ (List.range estimated_chunks).map (fun i =>
      "[Contenido del PDF " ++ filename ++ " - Chunk " ++ toString (i + 1) ++ "]"),
    metadata := st.metadata ++ (List.range estimated_chunks).map (fun i =>
      { type := "pdf", title := pdf_title, author := "Autor del PDF", source := filename,
        page := toString (i + 1), upload_time := upload_time }) }

/-- The clear-rag endpoint of backend/app.py: resets both lists. -/
def clear_rag (_st : RagStorage) : RagStorage :=
  { chunks := [], metadata := [] }

/- ----------------------------------------------------------------- -/
/- Generation model, app.py variant.                                  -/
/- ----------------------------------------------------------------- -/

/-- The payload handed to openai.ChatCompletion.create: message list of
(role, content) pairs plus the sampling parameters forwarded verbatim. -/
structure ChatRequest where
  model : String
  messages : List (String × String)
  temperature : Rat
  top_p : Rat
  frequency_penalty : Rat
  presence_penalty : Rat
  max_tokens : Int
  stop : Option (List String)

/-- The GenerateRequest pydantic model of backend/app.py. -/
structure GenerateRequest where
  prompt : String
  temperature : Rat
  top_p : Rat
  top_k : Option Int
  frequency_penalty : Rat
  presence_penalty : Rat
  max_tokens : Int
  style : String
  use_rag : Bool
  stop_sequences : List String

/-- One source attribution entry of the app.py generate endpoint. -/
structure SourceRef where
  title : String
  author : String
  page : String
  type : String
deriving DecidableEq

/-- The JSON object returned by the app.py generate endpoint. -/
structure AppGenResult where
  response : String
  chunks_used : Nat
  sources : List SourceRef
deriving DecidableEq

/-- The style_prompts dict of backend/app.py: the persona instruction for
each recognized tag; "natural" maps to None and dict.get returns None for
any unknown tag. -/
def style_prompts (style : String) : Option String :=
  if style = "natural" then none
  else if style = "scientific" then some "Responde de manera científica y técnica, usando terminología precisa y explicando los conceptos con rigor académico."
  else if style = "friendly_teacher" then some "Responde como un profesor amigable y alentador que quiere ayudar al estudiante a entender."
  else if style = "child_5yo" then some "Responde como si fueras un niño de 5 años, usando lenguaje muy simple y comparaciones infantiles."
  else if style = "shakespeare" then some "Responde en estilo shakesperiano dramático, con lenguaje teatral y poético."
  else if style = "wise_grandmother" then some "Responde como una abuela sabia y cariñosa que cuenta historias y da consejos con amor."
  else if style = "confused_robot" then some "Responde como un robot confundido que toma todo literalmente y no entiende las metáforas."
  else if style = "philosopher" then some "Responde como un filósofo existencial, cuestionando todo y reflexionando profundamente."
  else if style = "salesperson" then some "Responde como un vendedor súper entusiasta que está emocionado por todo."
  else if style = "storyteller" then some "Responde como un narrador de cuentos, convirtiendo todo en una narrativa."
  else if style = "comedian" then some "Responde como un comediante tratando de hacer todo gracioso con chistes y juegos de palabras."
  else if style = "pirate" then some "¡Arrr! Responde como un pirata con jerga pirata y referencias náuticas, marinero!"
  else if style = "chef" then some "Responde como un chef, usando metáforas culinarias para explicar todo como si fuera una receta."
  else none

/-- The keys of the style_prompts dict in backend/app.py. -/
def app_style_keys : List String :=
  ["natural", "scientific", "friendly_teacher", "child_5yo", "shakespeare",
   "wise_grandmother", "confused_robot", "philosopher", "salesperson",
   "storyteller", "comedian", "pirate", "chef"]

/-- One context block of the augmented prompt in backend/app.py. -/
def contextEntry (chunk : String) (m : ChunkMeta) : String :=
  "[Fuente: " ++ m.title ++ " - " ++ m.author ++ " - Página " ++ m.page ++ "]\n" ++ chunk

/-- context_chunks of backend/app.py: the first five stored chunks. -/
def app_context_chunks (st : RagStorage) : List String := st.chunks.take 5

/-- context_metadata of backend/app.py: the first five metadata records. -/
def app_context_metadata (st : RagStorage) : List ChunkMeta := st.metadata.take 5

/-- sources_used of backend/app.py, built from context_metadata. -/
def sourceOfMeta (m : ChunkMeta) : SourceRef :=
  { title := m.title, author := m.author, page := m.page, type := m.type }

/-- The augmented prompt of backend/app.py when RAG context is injected:
the first five chunks, each prefixed with its attribution header. -/
def app_augmented_prompt (st : RagStorage) (prompt : String) : String :=
  let context_text := String.intercalate "\n\n"
    (((app_context_chunks st).zip (app_context_metadata st)).map (fun p => contextEntry p.1 p.2))
  "Contexto proporcionado:\n" ++ context_text ++ "\n\nPregunta del usuario: " ++ prompt ++
    "\n\nPor favor, responde basándote en el contexto proporcionado y cita las fuentes cuando sea relevante."

/-- The generate endpoint of backend/app.py.  api_key_configured models
bool(openai.api_key); api models the ChatCompletion call, returning ok
with the generated text or error with the exception text.  When the key
is absent the endpoint returns the test-mode placeholder before any call.
The final except-branch turns any api failure into a 200 result with a
diagnostic message and zero chunks. -/
def app_generate (st : RagStorage) (api_key_configured : Bool) (req : GenerateRequest)
    (api : ChatRequest → Except String String) : AppGenResult :=
  let system_message := style_prompts req.style
  if api_key_configured then
    let use_ctx := req.use_rag && !st.chunks.isEmpty
    let sources_used := if use_ctx then (app_context_metadata st).map sourceOfMeta else []
    let augmented_prompt := if use_ctx then app_augmented_prompt st req.prompt else req.prompt
    let messages := (match system_message with
      | some s => [("system", s)]
      | none => []) ++ [("user", augmented_prompt)]
    match api { model := "gpt-3.5-turbo", messages := messages,
                temperature := req.temperature, top_p := req.top_p,
                frequency_penalty := req.frequency_penalty,
                presence_penalty := req.presence_penalty,
                max_tokens := req.max_tokens,
                stop := if req.stop_sequences.isEmpty then none else some req.stop_sequences } with
    | .ok ai_response =>
      { response := ai_response, chunks_used := sources_used.length, sources := sources_used }
    | .error e =>
      { response := "Error al generar respuesta: " ++ e, chunks_used := 0, sources := [] }
  else
    { response := "[Modo de Prueba - OpenAI no configurado]\n\nEstilo: " ++ req.style ++
        "\nPregunta: " ++ req.prompt ++ "\n\n(Configure OPENAI_API_KEY para respuestas reales)",
      chunks_used := 0, sources := [] }

/- ----------------------------------------------------------------- -/
/- Generation model, routes variant (routes/generate.py, utils/model, -/
/- utils/chroma).                                                     -/
/- ----------------------------------------------------------------- -/

/-- The PromptData pydantic model of backend/routes/generate.py. -/
structure PromptData where
  prompt : String
  temperature : Rat
  top_p : Rat
  top_k : Option Int
  frequency_penalty : Rat
  presence_penalty : Rat
  max_tokens : Int
  stop_sequences : Option (List String)
  style : String
  use_rag : Bool

/-- The JSON object returned by the route-level generate endpoint:
response plus chunks_used (it has no sources field). -/
structure RouteResult where
  response : String
  chunks_used : Nat
deriving DecidableEq

/-- The styles dict of apply_style_to_prompt in backend/routes/generate.py;
dict.get(style, prompt) returns the unchanged prompt for the neutral tag
and for any unknown tag. -/
def apply_style_to_prompt (prompt style : String) : String :=
  if style = "scientist" then "You are a scientist answering with academic rigor. " ++ prompt
  else if style = "teacher" then "You are a loving teacher who answers with care and understanding. " ++ prompt
  else if style = "friendly" then "You are a friendly assistant. " ++ prompt
  else if style = "neutral" then prompt
  else prompt

/-- The keys of the styles dict in backend/routes/generate.py. -/
def route_style_keys : List String := ["scientist", "teacher", "friendly", "neutral"]

/-- get_chunks_from_chroma of backend/utils/chroma.py.  collection_query
models collection.query and yields the documents field (a list of result
lists) or an exception text; the except-branch returns []. -/
def get_chunks_from_chroma (query : String) (n_results : Nat)
    (collection_query : String → Nat → Except String (List (List String))) : List String :=
  match collection_query query n_results with
  | .error _ => []
  | .ok documents =>
    match documents with
    | [] => []
    | d :: _ => d

/-- chunks[:3] of backend/utils/model.py line 25: the retrieved chunks
that are actually injected into the prompt. -/
def model_injected_chunks (chunks : List String) : List String := chunks.take 3

/-- The prompt built by generate_response_from_model: the context block
with the top three chunks is appended only when chunks is non-empty. -/
def model_prompt (prompt : String) (chunks : List String) : String :=
  if chunks.isEmpty then prompt
  else prompt ++ "\n\nRelevant Context:\n" ++ String.intercalate "\n" (model_injected_chunks chunks)

/-- generate_response_from_model of backend/utils/model.py: builds the
prompt, calls the api oracle, and converts any failure into the string
"Error generating response: ..." instead of raising. -/
def generate_response_from_model (api : ChatRequest → Except String String)
    (prompt : String) (chunks : List String)
    (temperature top_p frequency_penalty presence_penalty : Rat)
    (max_tokens : Int) (stop_sequences : Option (List String)) : String :=
  let p := model_prompt prompt chunks
  match api { model := "gpt-3.5-turbo",
              messages := [("system", "You are an educational AI assistant."), ("user", p)],
              temperature := temperature, top_p := top_p,
              frequency_penalty := frequency_penalty, presence_penalty := presence_penalty,
              max_tokens := max_tokens, stop := stop_sequences } with
  | .ok r => r
  | .error e => "Error generating response: " ++ e

/-- The route-level generate endpoint of backend/routes/generate.py:
styles the prompt, retrieves chunks from chroma when use_rag is set
(n_results defaults to 5), calls the model, and reports
chunks_used = len(chunks) for the retrieved list. -/
def route_generate (data : PromptData)
    (collection_query : String → Nat → Except String (List (List String)))
    (api : ChatRequest → Except String String) : RouteResult :=
  let styled_prompt := apply_style_to_prompt data.prompt data.style
  let chunks := if data.use_rag then get_chunks_from_chroma data.prompt 5 collection_query else []
  let response := generate_response_from_model api styled_prompt chunks
    data.temperature data.top_p data.frequency_penalty data.presence_penalty
    data.max_tokens data.stop_sequences
  { response := response, chunks_used := chunks.length }

/- ----------------------------------------------------------------- -/
/- Concrete fixtures for counterexamples and witnesses.               -/
/- ----------------------------------------------------------------- -/

/-- An empty store. -/
def stEmpty : RagStorage := { chunks := [], metadata := [] }

/-- A sample metadata record. -/
def metaA : ChunkMeta :=
  { type := "text", title := "T", author := "A", source := "S", page := "1", upload_time := "t0" }

/-- A store holding two chunks with matching metadata. -/
def stTwo : RagStorage := { chunks := ["c1", "c2"], metadata := [metaA, metaA] }

/-- A basic app.py request with RAG disabled and the neutral tag. -/
def reqNoRag : GenerateRequest :=
  { prompt := "hola", temperature := 0, top_p := 0, top_k := none,
    frequency_penalty := 0, presence_penalty := 0, max_tokens := 5,
    style := "natural", use_rag := false, stop_sequences := [] }

/-- The same request with RAG enabled. -/
def reqRag : GenerateRequest := { reqNoRag with use_rag := true }

/-- The same request with a style tag outside the lookup table. -/
def reqStyleU : GenerateRequest := { reqNoRag with style := "estilo_inexistente" }

/-- A basic routes request with RAG disabled and the neutral tag. -/
def dataNoRag : PromptData :=
  { prompt := "hola", temperature := 0, top_p := 0, top_k := none,
    frequency_penalty := 0, presence_penalty := 0, max_tokens := 5,
    stop_sequences := none, style := "neutral", use_rag := false }

/-- The same routes request with RAG enabled. -/
def dataRag : PromptData := { dataNoRag with use_rag := true }

/-- A chroma oracle returning four result chunks. -/
def oracleFour : String → Nat → Except String (List (List String)) :=
  fun _ _ => Except.ok [["c1", "c2", "c3", "c4"]]

/-- A chroma oracle that always raises. -/
def oracleFail : String → Nat → Except String (List (List String)) :=
  fun _ _ => Except.error "db down"

/-- A generation api that always succeeds with a fixed answer. -/
def apiEcho : ChatRequest → Except String String := fun _ => Except.ok "answer"

/-- A generation api that always fails. -/
def apiFail : ChatRequest → Except String String := fun _ => Except.error "boom"

/- ----------------------------------------------------------------- -/
/- Claims C1 - C3: the chunker.                                       -/
/- ----------------------------------------------------------------- -/

/-- C1 counterexample: the claim states that only the final chunk may be
shorter than chunk_size and that consecutive chunks overlap in exactly
overlap characters except possibly at the last chunk.  For the text
"abcde" with chunk_size 10 and overlap 2 ... 8, chunk_text yields 3
chunks; chunk 0 is not the final chunk (0 < 3 - 1) yet has length 5 < 10,
and the number of positions shared by chunk 0 and chunk 1 (chunk 0 ends
at position length 5, chunk 1 starts at the stride 10 - 8 = 2) is
5 - 2 = 3, not 8, although chunk 1 is not the last chunk either
(1 < 3 - 1). -/
theorem C1_counterexample :
    (chunk_text ("abcde".data) 10 8).length = 3 ∧
    0 < (chunk_text ("abcde".data) 10 8).length - 1 ∧
    ((chunk_text ("abcde".data) 10 8).getD 0 []).length = 5 ∧
    ((chunk_text ("abcde".data) 10 8).getD 0 []).length ≠ 10 ∧
    ((chunk_text ("abcde".data) 10 8).getD 0 []).length - (10 - 8) = 3 ∧
    (3 : Nat) ≠ 8 ∧
    1 < (chunk_text ("abcde".data) 10 8).length - 1 := by
  decide

/-- C1 (amended): for 0 <= overlap < chunk_size, chunk i of chunk_text is
exactly the substring starting at offset i * (chunk_size - overlap),
truncated at the end of the text, so its length is
min chunk_size (len - i * (chunk_size - overlap)) and in particular at
most chunk_size; any chunk whose window extends past the end of the text
(not only the final one) may be shorter than chunk_size.  Whenever chunk
i has full length chunk_size and a successor chunk exists, the two chunks
overlap in exactly overlap characters (the last overlap characters of
chunk i are the first overlap characters of chunk i+1).  The scenario
text (43 characters as quoted, not 44 as the spec counts) with
chunk_size 10 and overlap 2 yields 6 chunks, each of at most 10
characters, and every consecutive pair overlaps in exactly 2 characters. -/
theorem C1_amended :
    (∀ (S O : Nat) (t : List Char) (i : Nat), O < S → i < (chunk_text t S O).length →
      (chunk_text t S O).getD i [] = (t.drop (i * (S - O))).take S ∧
      ((chunk_text t S O).getD i []).length = min S (t.length - i * (S - O)) ∧
      ((chunk_text t S O).getD i []).length ≤ S ∧
      (((chunk_text t S O).getD i []).length = S → i + 1 < (chunk_text t S O).length →
        ((chunk_text t S O).getD i []).drop (S - O) = ((chunk_text t S O).getD (i + 1) []).take O ∧
        (((chunk_text t S O).getD i []).drop (S - O)).length = O)) ∧
    ((chunk_text foxData 10 2).length = 6 ∧
      (∀ c ∈ chunk_text foxData 10 2, c.length ≤ 10) ∧
      (∀ i < 5,
        ((chunk_text foxData 10 2).getD i []).drop 8 = ((chunk_text foxData 10 2).getD (i + 1) []).take 2 ∧
        (((chunk_text foxData 10 2).getD i []).drop 8).length = 2)) := by
  constructor
  · intro S O t i h hi
    have hgd := chunk_text_getD t S O h i hi
    refine ⟨hgd, ?_, ?_, ?_⟩
    · rw [hgd, List.length_take, List.length_drop]
    · rw [hgd, List.length_take]
      exact Nat.min_le_left _ _
    · intro hfull hi1
      have hgd1 := chunk_text_getD t S O h (i + 1) hi1
      rw [hgd] at hfull
      have hO : S - (S - O) = O := by omega
      have hstep : i * (S - O) + (S - O) = (i + 1) * (S - O) := by rw [Nat.succ_mul]
      constructor
      · rw [hgd, hgd1, List.drop_take, List.drop_drop, hstep, hO, List.take_take,
          Nat.min_eq_left (by omega : O ≤ S)]
      · rw [hgd, List.length_drop, hfull]
        omega
  · exact ⟨by decide, by decide, by decide⟩

/-- C1 witness: the amended theorem applied to the scenario text at chunk
index 1 with chunk_size 10 and overlap 2. -/
theorem C1_witness :
    (2 < 10 ∧ 1 < (chunk_text foxData 10 2).length) ∧
    (chunk_text foxData 10 2).getD 1 [] = (foxData.drop (1 * (10 - 2))).take 10 :=
  ⟨⟨by decide, by decide⟩, (C1_amended.1 10 2 foxData 1 (by decide) (by decide)).1⟩

/-- C2: for 0 <= overlap < chunk_size, chunk_text produces exactly
ceil(len / (chunk_size - overlap)) chunks (written with the Nat ceiling
division (len + d - 1) / d), the concatenation of each chunk's first
chunk_size - overlap characters followed by the remainder of the final
chunk reconstructs the input exactly, and the empty text yields the
empty sequence. -/
theorem C2_count_and_reconstruction (S O : Nat) (t : List Char) (h : O < S) :
    (chunk_text t S O).length = (t.length + (S - O) - 1) / (S - O) ∧
    reconstruct (chunk_text t S O) (S - O) = t ∧
    chunk_text [] S O = [] :=
  ⟨chunk_text_length t S O h, chunk_text_reconstruct t S O h, rfl⟩

/-- C2 witness: the theorem applied to the scenario text with
chunk_size 10 and overlap 2. -/
theorem C2_witness :
    2 < 10 ∧
    ((chunk_text foxData 10 2).length = (foxData.length + (10 - 2) - 1) / (10 - 2) ∧
     reconstruct (chunk_text foxData 10 2) (10 - 2) = foxData ∧
     chunk_text [] 10 2 = []) :=
  ⟨by decide, C2_count_and_reconstruction 10 2 foxData (by decide)⟩

/-- C3: chunk_text does not reject or clamp overlap >= chunk_size; its
while loop never advances (start += chunk_size - overlap adds 0 in the
Nat model, and a non-positive step in Python) and therefore never
terminates on the one-character text "a" with chunk_size 1 and
overlap 1: no fuel bound makes the loop return.  The claim - and the
specification sentence it formalizes - requires termination with a
finite sequence, so the code contradicts it. -/
theorem C3_overlap_ge_size_loops_forever (fuel : Nat) :
    chunkLoop ("a".data) 1 1 fuel 0 = none :=
  chunkLoop_stuck ("a".data) 1 1 (Nat.le_refl 1) fuel 0 (by decide)

/- ----------------------------------------------------------------- -/
/- Claims C4 - C8: the generation pipelines.                          -/
/- ----------------------------------------------------------------- -/

/-- C4 counterexample: in the routes variant, when the external call
fails while RAG retrieval returned four chunks, the endpoint returns the
diagnostic text but reports chunks_used = 4, not 0 as the claim states. -/
theorem C4_counterexample :
    (route_generate dataRag oracleFour apiFail).response = "Error generating response: boom" ∧
    (route_generate dataRag oracleFour apiFail).chunks_used = 4 ∧
    (route_generate dataRag oracleFour apiFail).chunks_used ≠ 0 := by
  decide

/-- C4 (amended): when the external generation call fails with message e,
neither variant propagates the failure: each returns a result whose text
is a human-readable diagnostic.  The app.py endpoint reports chunk count
0 and an empty sources list; the routes endpoint instead reports the
number of chunks retrieved from the store, which can be non-zero. -/
theorem C4_amended (st : RagStorage) (req : GenerateRequest) (data : PromptData)
    (q : String → Nat → Except String (List (List String))) (e : String) :
    (app_generate st true req (fun _ => Except.error e)).response = "Error al generar respuesta: " ++ e ∧
    (app_generate st true req (fun _ => Except.error e)).chunks_used = 0 ∧
    (app_generate st true req (fun _ => Except.error e)).sources = [] ∧
    (route_generate data q (fun _ => Except.error e)).response = "Error generating response: " ++ e ∧
    (route_generate data q (fun _ => Except.error e)).chunks_used =
      (if data.use_rag then get_chunks_from_chroma data.prompt 5 q else []).length :=
  ⟨rfl, rfl, rfl, rfl, rfl⟩

/-- C5 counterexample: in the routes variant with four retrieved chunks
and a successful call, only the first three chunks are injected into the
prompt (chunks[:3] in utils/model.py) but chunks_used reports 4. -/
theorem C5_counterexample :
    (route_generate dataRag oracleFour apiEcho).chunks_used = 4 ∧
    (model_injected_chunks (get_chunks_from_chroma dataRag.prompt 5 oracleFour)).length = 3 ∧
    (route_generate dataRag oracleFour apiEcho).chunks_used ≠
      (model_injected_chunks (get_chunks_from_chroma dataRag.prompt 5 oracleFour)).length := by
  decide

/-- C5 (amended): on a successful call with RAG enabled, the app.py
endpoint reports chunks_used equal to the number of chunks injected into
the augmented prompt (the first five stored chunks, zipped one-to-one
with their metadata under the store invariant), while the routes endpoint
reports the number of retrieved chunks even though only the first three
of them are injected into the prompt. -/
theorem C5_amended (st : RagStorage) (req : GenerateRequest) (data : PromptData)
    (q : String → Nat → Except String (List (List String))) (ai : String)
    (hinv : st.chunks.length = st.metadata.length) (hrag : req.use_rag = true) :
    (app_generate st true req (fun _ => Except.ok ai)).chunks_used = (app_context_chunks st).length ∧
    ((app_context_chunks st).zip (app_context_metadata st)).length = (app_context_chunks st).length ∧
    (route_generate data q (fun _ => Except.ok ai)).chunks_used =
      (if data.use_rag then get_chunks_from_chroma data.prompt 5 q else []).length ∧
    model_injected_chunks (get_chunks_from_chroma data.prompt 5 q) =
      (get_chunks_from_chroma data.prompt 5 q).take 3 := by
  refine ⟨?_, ?_, rfl, rfl⟩
  · cases hc : st.chunks with
    | nil => simp [app_generate, hrag, hc, app_context_chunks]
    | cons a l =>
      rw [hc] at hinv
      have e : st.metadata.length = l.length + 1 := by simpa using hinv.symm
      simp [app_generate, hrag, hc, app_context_chunks, app_context_metadata, e]
      omega
  · simp [app_context_chunks, app_context_metadata, List.length_zip, List.length_take, hinv,
      Nat.min_self]

/-- C5 witness: the amended theorem applied to the two-chunk store and a
RAG-enabled request. -/
theorem C5_witness :
    (stTwo.chunks.length = stTwo.metadata.length ∧ reqRag.use_rag = true) ∧
    (app_generate stTwo true reqRag (fun _ => Except.ok "a")).chunks_used =
      (app_context_chunks stTwo).length :=
  ⟨⟨rfl, rfl⟩, (C5_amended stTwo reqRag dataRag oracleFour "a" rfl rfl).1⟩

/-- C6 counterexample: with the OpenAI key absent, the app.py test-mode
placeholder interpolates the raw style tag into the response, so a
request with an unknown tag does not produce the same output as the same
request with the neutral tag "natural"; the claim asserts the outputs are
identical for every generation request. -/
theorem C6_counterexample :
    style_prompts "estilo_inexistente" = none ∧
    (app_generate stEmpty false reqStyleU apiEcho).response ≠
      (app_generate stEmpty false reqNoRag apiEcho).response ∧
    reqStyleU = { reqNoRag with style := "estilo_inexistente" } := by
  refine ⟨rfl, ?_, rfl⟩
  decide

/-- C6 (amended): a style tag outside the lookup tables resolves to no
persona instruction, exactly like the neutral tag, in both variants; when
the generation API key is configured the app.py endpoint produces the
identical result as for "natural", and the routes endpoint always
produces the identical result as for "neutral".  Only the test-mode
placeholder taken when the key is absent differs, because it echoes the
raw style tag. -/
theorem C6_amended (prompt style : String) (st : RagStorage) (req : GenerateRequest)
    (api : ChatRequest → Except String String)
    (q : String → Nat → Except String (List (List String))) (data : PromptData)
    (h1 : style ∉ app_style_keys) (h2 : style ∉ route_style_keys) :
    style_prompts style = none ∧
    apply_style_to_prompt prompt style = apply_style_to_prompt prompt "neutral" ∧
    app_generate st true { req with style := style } api =
      app_generate st true { req with style := "natural" } api ∧
    route_generate { data with style := style } q api =
      route_generate { data with style := "neutral" } q api := by
  simp only [app_style_keys, List.mem_cons, List.not_mem_nil, or_false, not_or] at h1
  simp only [route_style_keys, List.mem_cons, List.not_mem_nil, or_false, not_or] at h2
  obtain ⟨k1, k2, k3, k4, k5, k6, k7, k8, k9, k10, k11, k12, k13⟩ := h1
  obtain ⟨r1, r2, r3, r4⟩ := h2
  have hnone : style_prompts style = none := by
    simp [style_prompts, k1, k2, k3, k4, k5, k6, k7, k8, k9, k10, k11, k12, k13]
  have hroute : apply_style_to_prompt prompt style = prompt := by
    simp [apply_style_to_prompt, r1, r2, r3, r4]
  refine ⟨hnone, ?_, ?_, ?_⟩
  · rw [hroute]
    simp [apply_style_to_prompt]
  · simp [app_generate, hnone, show style_prompts "natural" = none from rfl]
  · have hroute2 : apply_style_to_prompt data.prompt style = data.prompt := by
      simp [apply_style_to_prompt, r1, r2, r3, r4]
    have hneutral : apply_style_to_prompt data.prompt "neutral" = data.prompt := by
      simp [apply_style_to_prompt]
    simp [route_generate, hroute2, hneutral]

/-- C6 witness: the amended theorem applied to an unknown tag and the
two-chunk store with a successful api. -/
theorem C6_witness :
    ("estilo_inexistente" ∉ app_style_keys ∧ "estilo_inexistente" ∉ route_style_keys) ∧
    app_generate stTwo true { reqNoRag with style := "estilo_inexistente" } apiEcho =
      app_generate stTwo true { reqNoRag with style := "natural" } apiEcho :=
  ⟨⟨by decide, by decide⟩,
   (C6_amended "hola" "estilo_inexistente" stTwo reqNoRag apiEcho oracleFour dataNoRag
     (by decide) (by decide)).2.2.1⟩

/-- C7: with use_rag = false neither variant consults the store: the
app.py result does not depend on the store contents and the routes
result does not depend on the collection-query oracle, and both report
chunks_used = 0; the app.py result (the variant whose response carries a
sources field) has an empty sources list. -/
theorem C7_no_rag_no_query (st st2 : RagStorage) (key : Bool) (req : GenerateRequest)
    (api : ChatRequest → Except String String) (data : PromptData)
    (q q2 : String → Nat → Except String (List (List String)))
    (h : req.use_rag = false) (h2 : data.use_rag = false) :
    (app_generate st key req api).chunks_used = 0 ∧
    (app_generate st key req api).sources = [] ∧
    app_generate st key req api = app_generate st2 key req api ∧
    (route_generate data q api).chunks_used = 0 ∧
    route_generate data q api = route_generate data q2 api := by
  have hr1 : (route_generate data q api).chunks_used = 0 := by
    simp [route_generate, h2]
  have hr2 : route_generate data q api = route_generate data q2 api := by
    simp [route_generate, h2]
  cases key
  · exact ⟨rfl, rfl, rfl, hr1, hr2⟩
  · refine ⟨?_, ?_, ?_, hr1, hr2⟩
    · simp only [app_generate, h, Bool.false_and, if_true]
      split <;> rfl
    · simp only [app_generate, h, Bool.false_and, if_true]
      split <;> rfl
    · simp [app_generate, h]

/-- C7 witness: the theorem applied to two different stores and two
different oracles with RAG disabled. -/
theorem C7_witness :
    (reqNoRag.use_rag = false ∧ dataNoRag.use_rag = false) ∧
    (app_generate stEmpty true reqNoRag apiEcho).chunks_used = 0 ∧
    app_generate stEmpty true reqNoRag apiEcho = app_generate stTwo true reqNoRag apiEcho :=
  ⟨⟨rfl, rfl⟩,
   (C7_no_rag_no_query stEmpty stTwo true reqNoRag apiEcho dataNoRag oracleFour oracleFail
     rfl rfl).1,
   (C7_no_rag_no_query stEmpty stTwo true reqNoRag apiEcho dataNoRag oracleFour oracleFail
     rfl rfl).2.2.1⟩

/-- C8: when the generation API key is absent, the app.py endpoint
returns the labeled test-mode placeholder (the response text opens with
the marker [Modo de Prueba - OpenAI no configurado]) with chunk count 0
and no sources, for every request, store and api oracle - it neither
calls the api nor fails. -/
theorem C8_missing_key_placeholder (st : RagStorage) (req : GenerateRequest)
    (api : ChatRequest → Except String String) :
    app_generate st false req api =
      { response := "[Modo de Prueba - OpenAI no configurado]\n\nEstilo: " ++ req.style ++
          "\nPregunta: " ++ req.prompt ++ "\n\n(Configure OPENAI_API_KEY para respuestas reales)",
        chunks_used := 0, sources := [] } := rfl

/- ----------------------------------------------------------------- -/
/- Claims C9 - C10: store invariant and retrieval error fallback.     -/
/- ----------------------------------------------------------------- -/

/-- C9: every store operation of backend/app.py preserves the invariant
that the chunks and metadata lists have equal length (one metadata record
per chunk, appended in lockstep), and the upload operations only append:
the previous contents of both lists survive unchanged as the initial
segment, so ingestion order is preserved.  clear resets both lists to
empty, which trivially satisfies the invariant. -/
theorem C9_store_invariant (st : RagStorage) (text : List Char) (S O : Nat)
    (title author source upload_time : String) (url : String) (t2 a2 : Option String)
    (tm2 : String) (filename : String) (file_size : Nat) (tm3 : String)
    (h : st.chunks.length = st.metadata.length) :
    ((upload_text st text S O title author source upload_time).chunks.length =
        (upload_text st text S O title author source upload_time).metadata.length ∧
      (upload_text st text S O title author source upload_time).chunks.take st.chunks.length = st.chunks ∧
      (upload_text st text S O title author source upload_time).metadata.take st.metadata.length = st.metadata) ∧
    ((upload_url st url t2 a2 tm2).chunks.length = (upload_url st url t2 a2 tm2).metadata.length ∧
      (upload_url st url t2 a2 tm2).chunks.take st.chunks.length = st.chunks ∧
      (upload_url st url t2 a2 tm2).metadata.take st.metadata.length = st.metadata) ∧
    ((upload_pdf st filename file_size tm3).chunks.length =
        (upload_pdf st filename file_size tm3).metadata.length ∧
      (upload_pdf st filename file_size tm3).chunks.take st.chunks.length = st.chunks ∧
      (upload_pdf st filename file_size tm3).metadata.take st.metadata.length = st.metadata) ∧
    ((clear_rag st).chunks.length = (clear_rag st).metadata.length) := by
  refine ⟨⟨?_, ?_, ?_⟩, ⟨?_, ?_, ?_⟩, ⟨?_, ?_, ?_⟩, rfl⟩
  · simp [upload_text, h]
  · exact List.take_left _ _
  · exact List.take_left _ _
  · simp [upload_url, h]
  · exact List.take_left _ _
  · exact List.take_left _ _
  · simp [upload_pdf, h]
  · exact List.take_left _ _
  · exact List.take_left _ _

/-- C9 witness: the invariant theorem applied to the two-chunk store for
a concrete text, URL and PDF upload. -/
theorem C9_witness :
    stTwo.chunks.length = stTwo.metadata.length ∧
    ((upload_text stTwo ("abcd".data) 3 1 "t" "a" "s" "tm").chunks.length =
      (upload_text stTwo ("abcd".data) 3 1 "t" "a" "s" "tm").metadata.length) ∧
    ((upload_pdf stTwo "f.pdf" 12000 "tm3").chunks.length =
      (upload_pdf stTwo "f.pdf" 12000 "tm3").metadata.length) :=
  ⟨rfl,
   (C9_store_invariant stTwo ("abcd".data) 3 1 "t" "a" "s" "tm" "u" (some "x") none "tm2"
     "f.pdf" 12000 "tm3" rfl).1.1,
   (C9_store_invariant stTwo ("abcd".data) 3 1 "t" "a" "s" "tm" "u" (some "x") none "tm2"
     "f.pdf" 12000 "tm3" rfl).2.2.1.1⟩

/-- C10: when the collection query raises (modelled by an oracle that
always returns an error), get_chunks_from_chroma returns the empty list
instead of propagating the error, and the routes generate endpoint
behaves exactly as if retrieval were disabled: it returns the same
result as the same request with use_rag = false and reports
chunks_used = 0. -/
theorem C10_query_error_degrades_gracefully (query : String) (n : Nat) (e : String)
    (data : PromptData) (api : ChatRequest → Except String String) :
    get_chunks_from_chroma query n (fun _ _ => Except.error e) = [] ∧
    (route_generate data (fun _ _ => Except.error e) api).chunks_used = 0 ∧
    route_generate data (fun _ _ => Except.error e) api =
      route_generate { data with use_rag := false } (fun _ _ => Except.error e) api := by
  refine ⟨rfl, ?_, ?_⟩
  · cases hu : data.use_rag <;> simp [route_generate, get_chunks_from_chroma, hu]
  · cases hu : data.use_rag <;> simp [route_generate, get_chunks_from_chroma, hu]
